import Mathlib

/-!
Verification of the book-catalog browser (src/scripts.js) against its
natural-language specification.

The JavaScript source is shallowly embedded: module-level globals
(`books`, `BOOKS_PER_PAGE`, `page`, `matches`, the DOM list container and
the show-more button label) become explicit parameters and an `AppState`
record; DOM-appending handlers become state-transition functions; the
pure filtering and theming helpers become pure Lean functions.
JavaScript strings are modelled by `String`, with `toLowerCase`,
`trim` and `includes` modelled by character-list maps and a
character-list substring test (`jsToLower`, `jsTrim`, `jsIncludes`).
-/

namespace Scripts

/-- One catalog entry (a book), with the fields used by scripts.js. -/
structure Entry where
  id : String
  title : String
  author : String
  image : String
  description : String
  published : String
  genres : List String
deriving DecidableEq, Repr

/-- The filter criteria built from the search form: title substring,
author key or the sentinel "any", genre key or the sentinel "any". -/
structure Filters where
  title : String
  author : String
  genre : String
deriving DecidableEq, Repr

/-- Substring test on character lists, modelling the JavaScript
`String.prototype.includes`: does the pattern occur contiguously in the
list? -/
def includesAux (pat : List Char) : List Char → Bool
  | [] => pat.isEmpty
  | c :: rest => pat.isPrefixOf (c :: rest) || includesAux pat rest

/-- JavaScript `s.includes(pat)` on strings. -/
def jsIncludes (s pat : String) : Bool :=
  includesAux pat.data s.data

/-- JavaScript `s.toLowerCase()`, as a character-wise map (ASCII range,
which covers every string the program compares). -/
def jsToLower (s : String) : String :=
  String.mk (s.data.map Char.toLower)

/-- JavaScript `s.trim()`: strip whitespace from both ends. -/
def jsTrim (s : String) : String :=
  String.mk (((s.data.dropWhile Char.isWhitespace).reverse.dropWhile
    Char.isWhitespace).reverse)

/-- The title conjunct of the filter in applyFilters:
`filters.title.trim() === "" || book.title.toLowerCase().includes(filters.title.toLowerCase())`. -/
def titleMatch (filters : Filters) (book : Entry) : Bool :=
  jsTrim filters.title == "" || jsIncludes (jsToLower book.title) (jsToLower filters.title)

/-- The author conjunct of the filter in applyFilters:
`filters.author === "any" || book.author === filters.author`. -/
def authorMatch (filters : Filters) (book : Entry) : Bool :=
  filters.author == "any" || book.author == filters.author

/-- The genre flag of applyFilters: initialised to
`filters.genre === "any"`, then the loop over `book.genres` sets it to
true when a genre equals `filters.genre` (the `break` only short-circuits,
so the loop is a fold that keeps `true` once reached). -/
def genreMatch (filters : Filters) (book : Entry) : Bool :=
  book.genres.foldl (fun gm g => gm || (g == filters.genre)) (filters.genre == "any")

/-- The predicate returned by the filter callback in applyFilters. -/
def bookPasses (filters : Filters) (book : Entry) : Bool :=
  (titleMatch filters book && authorMatch filters book) && genreMatch filters book

/-- applyFilters from scripts.js: `books.filter(callback)`, with the
module-level `books` array made an explicit argument. -/
def applyFilters (filters : Filters) (books : List Entry) : List Entry :=
  books.filter (fun book => bookPasses filters book)

/-- A sample entry with the title used by the case-insensitivity
scenario. -/
def duneMessiah : Entry :=
  { id := "dune-messiah"
    title := "Dune Messiah"
    author := "frank-herbert"
    image := "dune-messiah.png"
    description := "Second novel of the saga."
    published := "1969-10-15"
    genres := ["scifi"] }

/-- The two CSS custom-property values set by setThemeColors. -/
structure ThemePalette where
  darkColor : String
  lightColor : String
deriving DecidableEq, Repr

/-- setThemeColors from scripts.js: the colors object built from the
theme string with two conditionals on whether the theme is "night". -/
def setThemeColors (theme : String) : ThemePalette :=
  { darkColor := if theme == "night" then "255, 255, 255" else "10, 10, 20"
    lightColor := if theme == "night" then "10, 10, 20" else "255, 255, 255" }

/-- checkAndSetTheme from scripts.js. The ambient signal
`window.matchMedia` is modelled as an optional query function; `none`
models a host where the interface is absent, in which case the JavaScript
conjunction `window.matchMedia && window.matchMedia(query).matches`
short-circuits to a falsy value without calling anything, so the ternary
yields "day" and no exception is raised (an `Except.error` would model a
thrown exception; the result is `Except.ok` in every case). -/
def checkAndSetTheme (matchMedia : Option (String → Bool)) : Except String String :=
  match matchMedia with
  | none => Except.ok "day"
  | some query =>
      Except.ok (if query "(prefers-color-scheme: dark)" then "night" else "day")

/-- One node of a click-event propagation path; `preview` models the
optional-chained `node?.dataset?.preview` attribute read. -/
structure PathNode where
  preview : Option String
deriving DecidableEq, Repr

/-- findActiveBook from scripts.js: `books.find((book) => book.id === id)`. -/
def findActiveBook (books : List Entry) (id : String) : Option Entry :=
  books.find? (fun book => book.id == id)

/-- handleListItemClick from scripts.js: walk the event path; while
`active` is still null, a node carrying a preview id sets
`active = findActiveBook(id)` (a failed lookup leaves it null and later
nodes are still tried); the loop keeps the first hit. Returns the book
passed to showActiveBook, or `none` when no overlay is opened. -/
def handleListItemClick (books : List Entry) (path : List PathNode) : Option Entry :=
  path.foldl
    (fun active node =>
      match active with
      | some a => some a
      | none =>
        match node.preview with
        | some pid => findActiveBook books pid
        | none => none)
    none

/-- Whether the click handler opens the detail overlay: showActiveBook
runs exactly when `active` ended up non-null. -/
def listItemClickOpensOverlay (books : List Entry) (path : List PathNode) : Bool :=
  (handleListItemClick books path).isSome

/-- JavaScript `array.slice(start, stop)` for the index ranges scripts.js
uses (non-negative indices, `stop` at least `start`). -/
def sliceJS (l : List Entry) (start stop : Nat) : List Entry :=
  (l.drop start).take (stop - start)

/-- The mutable application state of scripts.js: the module globals
`page` and `matches`, the content of the list container mount point
(`rendered`), and the count shown by the show-more button label
(`listButtonLabel`). -/
structure AppState where
  page : Nat
  matchedSet : List Entry
  rendered : List Entry
  listButtonLabel : Int
deriving DecidableEq, Repr

/-- createBookList from scripts.js: append the first page of `matches`
(`matches.slice(0, BOOKS_PER_PAGE)`) to the list container. -/
def createBookList (P : Nat) (s : AppState) : AppState :=
  { s with rendered := s.rendered ++ sliceJS s.matchedSet 0 P }

/-- The count computed by updateShowMoreButton in scripts.js:
`Math.max(books.length - BOOKS_PER_PAGE, 0)`, against the full catalog
length. -/
def updateShowMoreButton (booksLength P : Nat) : Int :=
  max ((booksLength : Int) - (P : Int)) 0

/-- The state after the initialisation of scripts.js: module globals
start as `page = 1`, `matches = books`, then createBookList and
updateShowMoreButton run (createOptionLists and checkAndSetTheme touch
neither the globals nor the list container). -/
def initState (books : List Entry) (P : Nat) : AppState :=
  let s0 : AppState := { page := 1, matchedSet := books, rendered := [], listButtonLabel := 0 }
  let s1 := createBookList P s0
  { s1 with listButtonLabel := updateShowMoreButton books.length P }

/-- handleShowMoreButtonClick from scripts.js: append
`matches.slice(page * BOOKS_PER_PAGE, (page + 1) * BOOKS_PER_PAGE)` to
the list container, then `page += 1`. -/
def handleShowMoreButtonClick (P : Nat) (s : AppState) : AppState :=
  { s with
    rendered := s.rendered ++ sliceJS s.matchedSet (s.page * P) ((s.page + 1) * P)
    page := s.page + 1 }

/-- updateBookList from scripts.js: `page = 1`, `matches = result`, the
list container is cleared (`innerHTML = ""`), createBookList redraws the
first page, and updateShowMoreButton recomputes the label from the full
catalog length. -/
def updateBookList (books : List Entry) (P : Nat) (result : List Entry)
    (s : AppState) : AppState :=
  let cleared : AppState := { s with page := 1, matchedSet := result, rendered := [] }
  let redrawn := createBookList P cleared
  { redrawn with listButtonLabel := updateShowMoreButton books.length P }

/-- Iterated show-more clicks. -/
def advanceN (P : Nat) : Nat → AppState → AppState
  | 0, s => s
  | k + 1, s => advanceN P k (handleShowMoreButtonClick P s)

/-- The states scripts.js can reach: the initial state, a show-more
click, or a search submission (which routes the form criteria through
applyFilters and then updateBookList). -/
inductive Reachable (books : List Entry) (P : Nat) : AppState → Prop where
  | init : Reachable books P (initState books P)
  | showMore : ∀ {s : AppState}, Reachable books P s →
      Reachable books P (handleShowMoreButtonClick P s)
  | search : ∀ {s : AppState} (filters : Filters), Reachable books P s →
      Reachable books P (updateBookList books P (applyFilters filters books) s)

/-- A small uniform entry for concrete scenarios. -/
def mkEntry (n : String) : Entry :=
  { id := n, title := n, author := "author-key", image := "", description := "",
    published := "", genres := [] }

/-- A five-entry sample catalog, used with page size 2 by the pagination
scenario of the specification. -/
def cat5 : List Entry :=
  [mkEntry "b1", mkEntry "b2", mkEntry "b3", mkEntry "b4", mkEntry "b5"]

/-- The index window a show-more click with cursor value p renders. -/
def pageWindow (p P : Nat) : Finset Nat :=
  Finset.Ico (p * P) ((p + 1) * P)

lemma includesAux_eq_true_iff (pat l : List Char) :
    includesAux pat l = true ↔ pat <:+: l := by
  induction l with
  | nil =>
    simp [includesAux, List.isEmpty_iff, List.infix_nil]
  | cons c rest ih =>
    simp [includesAux, List.infix_cons_iff, ih]

lemma jsIncludes_eq_true_iff (s pat : String) :
    jsIncludes s pat = true ↔ pat.data <:+: s.data := by
  simp [jsIncludes, includesAux_eq_true_iff]

lemma titleMatch_eq_true_iff (filters : Filters) (book : Entry) :
    titleMatch filters book = true ↔
      jsTrim filters.title = "" ∨
        (jsToLower filters.title).data <:+: (jsToLower book.title).data := by
  simp [titleMatch, jsIncludes_eq_true_iff]

lemma authorMatch_eq_true_iff (filters : Filters) (book : Entry) :
    authorMatch filters book = true ↔
      filters.author = "any" ∨ book.author = filters.author := by
  simp [authorMatch]

lemma foldl_or_beq (x : String) (gs : List String) (b : Bool) :
    gs.foldl (fun gm g => gm || (g == x)) b = (b || gs.any (fun g => g == x)) := by
  induction gs generalizing b with
  | nil => simp
  | cons g gs ih => simp [List.foldl_cons, ih, Bool.or_assoc]

lemma genreMatch_eq_true_iff (filters : Filters) (book : Entry) :
    genreMatch filters book = true ↔
      filters.genre = "any" ∨ filters.genre ∈ book.genres := by
  unfold genreMatch
  rw [foldl_or_beq]
  simp only [Bool.or_eq_true, List.any_eq_true, beq_iff_eq]
  constructor
  · rintro (h | ⟨g, hg, rfl⟩)
    · exact Or.inl h
    · exact Or.inr hg
  · rintro (h | h)
    · exact Or.inl h
    · exact Or.inr ⟨filters.genre, h, rfl⟩

lemma bookPasses_eq_true_iff (filters : Filters) (book : Entry) :
    bookPasses filters book = true ↔
      (jsTrim filters.title = "" ∨
        (jsToLower filters.title).data <:+: (jsToLower book.title).data) ∧
      (filters.author = "any" ∨ book.author = filters.author) ∧
      (filters.genre = "any" ∨ filters.genre ∈ book.genres) := by
  simp only [bookPasses, Bool.and_eq_true, titleMatch_eq_true_iff,
    authorMatch_eq_true_iff, genreMatch_eq_true_iff]
  tauto

lemma sliceJS_length (l : List Entry) (a b : Nat) :
    (sliceJS l a b).length = min (b - a) (l.length - a) := by
  simp [sliceJS]

lemma sliceJS_zero (l : List Entry) (P : Nat) :
    sliceJS l 0 P = l.take P := by
  simp [sliceJS]

lemma take_append_sliceJS (m : List Entry) (p P : Nat) :
    m.take (p * P) ++ sliceJS m (p * P) ((p + 1) * P) = m.take ((p + 1) * P) := by
  have h : (p + 1) * P = p * P + P := by ring
  simp only [sliceJS, h, Nat.add_sub_cancel_left]
  rw [← List.take_add]

lemma advanceN_spec (P k : Nat) :
    ∀ s : AppState, s.rendered = s.matchedSet.take (s.page * P) →
      (advanceN P k s).rendered = s.matchedSet.take ((s.page + k) * P) ∧
      (advanceN P k s).page = s.page + k ∧
      (advanceN P k s).matchedSet = s.matchedSet := by
  induction k with
  | zero =>
    intro s h
    refine ⟨?_, rfl, rfl⟩
    simpa [advanceN] using h
  | succ k ih =>
    intro s h
    have hstep : (handleShowMoreButtonClick P s).rendered =
        (handleShowMoreButtonClick P s).matchedSet.take
          ((handleShowMoreButtonClick P s).page * P) := by
      simp only [handleShowMoreButtonClick]
      rw [h, take_append_sliceJS]
    obtain ⟨h1, h2, h3⟩ := ih (handleShowMoreButtonClick P s) hstep
    have heq : advanceN P (k + 1) s = advanceN P k (handleShowMoreButtonClick P s) := rfl
    refine ⟨?_, ?_, ?_⟩
    · rw [heq, h1]
      show s.matchedSet.take ((s.page + 1 + k) * P) = s.matchedSet.take ((s.page + (k + 1)) * P)
      congr 1
      ring
    · rw [heq, h2]
      show s.page + 1 + k = s.page + (k + 1)
      omega
    · rw [heq, h3]
      rfl

lemma updateBookList_rendered (books : List Entry) (P : Nat)
    (result : List Entry) (s : AppState) :
    (updateBookList books P result s).rendered = result.take P := by
  simp [updateBookList, createBookList, sliceJS_zero]

lemma pageWindow_disjoint (p q P : Nat) (h : p ≠ q) :
    Disjoint (pageWindow p P) (pageWindow q P) := by
  rw [Finset.disjoint_left]
  intro x hx hx2
  simp only [pageWindow, Finset.mem_Ico] at hx hx2
  rcases Nat.lt_or_ge p q with hlt | hge
  · have hle : (p + 1) * P ≤ q * P := mul_le_mul_right' hlt P
    omega
  · have hqp : q + 1 ≤ p := by omega
    have hle : (q + 1) * P ≤ p * P := mul_le_mul_right' hqp P
    omega

lemma reachable_rendered_length (books : List Entry) (P : Nat)
    (s : AppState) (h : Reachable books P s) :
    1 ≤ s.page ∧ s.rendered.length = min (s.page * P) s.matchedSet.length := by
  induction h with
  | init =>
    refine ⟨le_refl 1, ?_⟩
    simp [initState, createBookList, sliceJS_length]
  | @showMore s hr ih =>
    obtain ⟨hp, hlen⟩ := ih
    refine ⟨by simp [handleShowMoreButtonClick], ?_⟩
    simp only [handleShowMoreButtonClick, List.length_append, sliceJS_length, hlen]
    have h1 : (s.page + 1) * P = s.page * P + P := Nat.succ_mul s.page P
    omega
  | @search s filters hr ih =>
    refine ⟨le_refl 1, ?_⟩
    simp [updateBookList, createBookList, sliceJS_length]

lemma reachable_label (books : List Entry) (P : Nat)
    (s : AppState) (h : Reachable books P s) :
    s.listButtonLabel = updateShowMoreButton books.length P := by
  induction h with
  | init => rfl
  | showMore hr ih => simpa [handleShowMoreButtonClick] using ih
  | search filters hr ih => rfl

end Scripts

/-- C1: for every catalog and every well-formed criteria record,
applyFilters returns a subsequence of the catalog (hence in the original
catalog order), and an entry is a member of the result iff it is a member
of the catalog and all three constraints pass: trimmed title criterion
empty or the lower-cased entry title has the lower-cased title criterion
as a contiguous substring, author criterion "any" or equal to the author
key of the entry, and genre criterion "any" or a member of the genre list
of the entry. -/
theorem Scripts.applyFilters_sublist_and_mem (filters : Scripts.Filters)
    (books : List Scripts.Entry) :
    (Scripts.applyFilters filters books).Sublist books ∧
    ∀ book : Scripts.Entry,
      book ∈ Scripts.applyFilters filters books ↔
        book ∈ books ∧
          (jsTrim filters.title = "" ∨
            (jsToLower filters.title).data <:+: (jsToLower book.title).data) ∧
          (filters.author = "any" ∨ book.author = filters.author) ∧
          (filters.genre = "any" ∨ filters.genre ∈ book.genres) := by
  constructor
  · exact List.filter_sublist books
  · intro book
    rw [Scripts.applyFilters, List.mem_filter, Scripts.bookPasses_eq_true_iff]

/-- C5: the title constraint passes exactly when the trimmed criteria
title is the empty string, or the lower-cased entry title contains the
lower-cased criteria title as a contiguous substring; in particular the
criteria title "DUNE" matches an entry titled "Dune Messiah". -/
theorem Scripts.titleMatch_iff_and_dune :
    (∀ (filters : Scripts.Filters) (book : Scripts.Entry),
      Scripts.titleMatch filters book = true ↔
        Scripts.jsTrim filters.title = "" ∨
          (Scripts.jsToLower filters.title).data <:+:
            (Scripts.jsToLower book.title).data) ∧
    Scripts.titleMatch ⟨"DUNE", "any", "any"⟩ Scripts.duneMessiah = true := by
  refine ⟨fun filters book => Scripts.titleMatch_eq_true_iff filters book, ?_⟩
  decide

/-- C9: the empty and sentinel criteria record (empty title, author "any",
genre "any") acts as the identity on every catalog: applyFilters returns
the full catalog unchanged in contents and order. -/
theorem Scripts.applyFilters_empty_criteria_identity (books : List Scripts.Entry) :
    Scripts.applyFilters ⟨"", "any", "any"⟩ books = books := by
  unfold Scripts.applyFilters
  apply List.filter_eq_self.mpr
  intro book _
  rw [Scripts.bookPasses_eq_true_iff]
  exact ⟨Or.inl (by decide), Or.inl rfl, Or.inl rfl⟩

/-- C6: the palette derived for "night" has its darkColor equal to the
lightColor of the palette derived for "day" and vice versa; concretely,
for "night" darkColor is the triple 255, 255, 255 and lightColor is the
triple 10, 10, 20, and for "day" the assignment is swapped. -/
theorem Scripts.setThemeColors_round_trip :
    (Scripts.setThemeColors "night").darkColor = (Scripts.setThemeColors "day").lightColor ∧
    (Scripts.setThemeColors "night").lightColor = (Scripts.setThemeColors "day").darkColor ∧
    (Scripts.setThemeColors "night").darkColor = "255, 255, 255" ∧
    (Scripts.setThemeColors "night").lightColor = "10, 10, 20" ∧
    (Scripts.setThemeColors "day").darkColor = "10, 10, 20" ∧
    (Scripts.setThemeColors "day").lightColor = "255, 255, 255" := by
  refine ⟨?_, ?_, ?_, ?_, ?_, ?_⟩ <;> decide

/-- C10: every theme value other than the exact string "night" (not just
"day") yields the day palette, and only the exact value "night" yields
the night palette. -/
theorem Scripts.setThemeColors_default_day (theme : String) (h : theme ≠ "night") :
    Scripts.setThemeColors theme =
      { darkColor := "10, 10, 20", lightColor := "255, 255, 255" } ∧
    Scripts.setThemeColors "night" =
      { darkColor := "255, 255, 255", lightColor := "10, 10, 20" } := by
  constructor
  · simp [Scripts.setThemeColors, h]
  · decide

/-- Witness for C10 at the malformed theme value "solarpunk". -/
theorem Scripts.setThemeColors_default_day_witness :
    Scripts.setThemeColors "solarpunk" =
      { darkColor := "10, 10, 20", lightColor := "255, 255, 255" } ∧
    Scripts.setThemeColors "night" =
      { darkColor := "255, 255, 255", lightColor := "10, 10, 20" } :=
  Scripts.setThemeColors_default_day "solarpunk" (by decide)

/-- C7: when the ambient light and dark signal is absent, theme selection
does not throw and falls back to "day"; when the signal is available and
reports a dark preference, "night" is selected. -/
theorem Scripts.checkAndSetTheme_fallback_and_dark :
    Scripts.checkAndSetTheme none = Except.ok "day" ∧
    ∀ query : String → Bool,
      query "(prefers-color-scheme: dark)" = true →
        Scripts.checkAndSetTheme (some query) = Except.ok "night" := by
  refine ⟨rfl, fun query h => ?_⟩
  simp [Scripts.checkAndSetTheme, h]

/-- Witness for C7: the absent signal yields "day", and a signal that
reports a dark preference yields "night". -/
theorem Scripts.checkAndSetTheme_fallback_and_dark_witness :
    Scripts.checkAndSetTheme none = Except.ok "day" ∧
    Scripts.checkAndSetTheme (some (fun _ => true)) = Except.ok "night" :=
  ⟨Scripts.checkAndSetTheme_fallback_and_dark.1,
    Scripts.checkAndSetTheme_fallback_and_dark.2 (fun _ => true) rfl⟩

/-- C8: a click whose path contains no node carrying a preview tag is a
no-op: the handler resolves no book and the detail overlay is not
opened (the handler is a total function, so no exception arises). -/
theorem Scripts.handleListItemClick_no_preview_noop
    (books : List Scripts.Entry) (path : List Scripts.PathNode)
    (h : ∀ node ∈ path, node.preview = none) :
    Scripts.handleListItemClick books path = none ∧
    Scripts.listItemClickOpensOverlay books path = false := by
  have hmain : Scripts.handleListItemClick books path = none := by
    unfold Scripts.handleListItemClick
    induction path with
    | nil => rfl
    | cons node rest ih =>
      rw [List.foldl_cons]
      have hnode : node.preview = none := h node (List.mem_cons_self node rest)
      rw [hnode]
      exact ih (fun n hn => h n (List.mem_cons_of_mem node hn))
  exact ⟨hmain, by simp [Scripts.listItemClickOpensOverlay, hmain]⟩

/-- Witness for C8 at a concrete catalog and a concrete path with no
preview tags. -/
theorem Scripts.handleListItemClick_no_preview_noop_witness :
    Scripts.handleListItemClick [Scripts.duneMessiah] [⟨none⟩, ⟨none⟩] = none ∧
    Scripts.listItemClickOpensOverlay [Scripts.duneMessiah] [⟨none⟩, ⟨none⟩] = false :=
  Scripts.handleListItemClick_no_preview_noop [Scripts.duneMessiah] [⟨none⟩, ⟨none⟩]
    (by decide)

/-- C2: right after a reset the rendered slice is the first page, indices
0 to min of the page size and the matched-set length; each show-more
click appends the window from page times P to page-plus-one times P and
increments the cursor; distinct windows are pairwise non-overlapping;
after k clicks the rendered list is the prefix of length one-plus-k times
P, so when the matched set has at least k times P entries every index
below k times P is rendered; and a window starting at or past the end of
the matched set yields the empty slice with no error. -/
theorem Scripts.pagination_windows (P k : Nat) (books result : List Scripts.Entry)
    (s : Scripts.AppState) :
    ((Scripts.updateBookList books P result s).rendered = result.take P ∧
      (Scripts.updateBookList books P result s).rendered.length = min P result.length) ∧
    (∀ t : Scripts.AppState,
      (Scripts.handleShowMoreButtonClick P t).rendered =
        t.rendered ++ Scripts.sliceJS t.matchedSet (t.page * P) ((t.page + 1) * P) ∧
      (Scripts.handleShowMoreButtonClick P t).page = t.page + 1) ∧
    (∀ p q : Nat, p ≠ q →
      Disjoint (Scripts.pageWindow p P) (Scripts.pageWindow q P)) ∧
    (Scripts.advanceN P k (Scripts.updateBookList books P result s)).rendered =
      result.take ((1 + k) * P) ∧
    (k * P ≤ result.length → ∀ i : Nat, i < k * P →
      (Scripts.advanceN P k (Scripts.updateBookList books P result s)).rendered[i]? =
        result[i]?) ∧
    (∀ t : Scripts.AppState, t.matchedSet.length ≤ t.page * P →
      Scripts.sliceJS t.matchedSet (t.page * P) ((t.page + 1) * P) = []) := by
  have h0 : (Scripts.updateBookList books P result s).rendered =
      (Scripts.updateBookList books P result s).matchedSet.take
        ((Scripts.updateBookList books P result s).page * P) := by
    rw [Scripts.updateBookList_rendered]
    show result.take P = result.take (1 * P)
    rw [one_mul]
  obtain ⟨h1, h2, h3⟩ :=
    Scripts.advanceN_spec P k (Scripts.updateBookList books P result s) h0
  have h4 : (Scripts.advanceN P k (Scripts.updateBookList books P result s)).rendered =
      result.take ((1 + k) * P) := h1
  refine ⟨⟨Scripts.updateBookList_rendered books P result s, ?_⟩,
    fun t => ⟨rfl, rfl⟩,
    fun p q hpq => Scripts.pageWindow_disjoint p q P hpq,
    h4, ?_, ?_⟩
  · rw [Scripts.updateBookList_rendered]
    exact List.length_take P result
  · intro hL i hi
    rw [h4]
    have hlt : i < (1 + k) * P := by
      have hx : (1 + k) * P = P + k * P := by ring
      omega
    exact List.getElem?_take_of_lt hlt
  · intro t ht
    simp [Scripts.sliceJS, List.drop_eq_nil_of_le ht]

/-- Witness for C2 with the five-entry catalog and page size 2: after two
show-more clicks index 3 is rendered from the matched set, the windows of
cursor values 1 and 2 are disjoint, and the window starting at index 6
(cursor 3, past the end) is empty. -/
theorem Scripts.pagination_windows_witness :
    (Scripts.advanceN 2 2
      (Scripts.updateBookList Scripts.cat5 2 Scripts.cat5
        (Scripts.initState Scripts.cat5 2))).rendered[3]? = Scripts.cat5[3]? ∧
    Disjoint (Scripts.pageWindow 1 2) (Scripts.pageWindow 2 2) ∧
    Scripts.sliceJS Scripts.cat5 (3 * 2) ((3 + 1) * 2) = [] := by
  have h := Scripts.pagination_windows 2 2 Scripts.cat5 Scripts.cat5
    (Scripts.initState Scripts.cat5 2)
  exact ⟨h.2.2.2.2.1 (by decide) 3 (by decide),
    h.2.2.1 1 2 (by decide),
    h.2.2.2.2.2 ⟨3, Scripts.cat5, [], 0⟩ (by decide)⟩

/-- C3: in every reachable state the show-more label count equals the
maximum of the full catalog length minus the page size and zero; it is
computed from the full catalog, never from the current matched set, and
after a search submission (updateBookList on the filter result) it still
carries the same full-catalog value. -/
theorem Scripts.showMoreLabel_full_catalog (books : List Scripts.Entry) (P : Nat)
    (s : Scripts.AppState) (h : Scripts.Reachable books P s) :
    s.listButtonLabel = max ((books.length : Int) - (P : Int)) 0 ∧
    ∀ filters : Scripts.Filters,
      (Scripts.updateBookList books P (Scripts.applyFilters filters books)
        s).listButtonLabel = max ((books.length : Int) - (P : Int)) 0 := by
  exact ⟨Scripts.reachable_label books P s h, fun filters => rfl⟩

/-- Witness for C3 at the initial state of the five-entry catalog with
page size 2. -/
theorem Scripts.showMoreLabel_full_catalog_witness :
    (Scripts.initState Scripts.cat5 2).listButtonLabel =
      max ((Scripts.cat5.length : Int) - ((2 : Nat) : Int)) 0 :=
  (Scripts.showMoreLabel_full_catalog Scripts.cat5 2 (Scripts.initState Scripts.cat5 2)
    Scripts.Reachable.init).1

/-- C4: in every reachable state the page cursor is at least 1 and the
rendered count equals the minimum of cursor times page size and the
matched-set length (hence lies between 0 and the matched-set length);
a search submission replaces the matched set and resets the cursor to 1
in the same operation, and a show-more click increments the cursor by 1
while leaving the matched set unchanged. -/
theorem Scripts.pageCursor_matchedSet_invariant (books : List Scripts.Entry) (P : Nat)
    (s : Scripts.AppState) (h : Scripts.Reachable books P s) :
    1 ≤ s.page ∧
    s.rendered.length = min (s.page * P) s.matchedSet.length ∧
    s.rendered.length ≤ s.matchedSet.length ∧
    (∀ filters : Scripts.Filters,
      (Scripts.updateBookList books P (Scripts.applyFilters filters books) s).page = 1 ∧
      (Scripts.updateBookList books P (Scripts.applyFilters filters books) s).matchedSet =
        Scripts.applyFilters filters books) ∧
    (Scripts.handleShowMoreButtonClick P s).page = s.page + 1 ∧
    (Scripts.handleShowMoreButtonClick P s).matchedSet = s.matchedSet := by
  obtain ⟨hp, hlen⟩ := Scripts.reachable_rendered_length books P s h
  refine ⟨hp, hlen, ?_, fun filters => ⟨rfl, rfl⟩, rfl, rfl⟩
  rw [hlen]
  exact min_le_right (s.page * P) s.matchedSet.length

/-- Witness for C4 at the initial state of the five-entry catalog with
page size 2. -/
theorem Scripts.pageCursor_matchedSet_invariant_witness :
    1 ≤ (Scripts.initState Scripts.cat5 2).page ∧
    (Scripts.initState Scripts.cat5 2).rendered.length =
      min ((Scripts.initState Scripts.cat5 2).page * 2)
        (Scripts.initState Scripts.cat5 2).matchedSet.length :=
  ⟨(Scripts.pageCursor_matchedSet_invariant Scripts.cat5 2
      (Scripts.initState Scripts.cat5 2) Scripts.Reachable.init).1,
    (Scripts.pageCursor_matchedSet_invariant Scripts.cat5 2
      (Scripts.initState Scripts.cat5 2) Scripts.Reachable.init).2.1⟩
